import Mathlib

/-!
Shallow embedding of the client-side filtering, summary-statistics and
badge-lookup logic of the tourist-safety dashboard (pages `DigitalIds.tsx`,
`Alerts.tsx`, and the E-FIR case page), together with theorems settling the
specification claims about that logic.

String fields of the TypeScript interfaces are embedded as `String`;
TypeScript string-literal unions erase to strings at runtime, so fields such
as `status` are embedded as `String` as well (the sample data only ever holds
the declared enumeration values).  JavaScript `Array.prototype.filter`
is `List.filter`, `String.prototype.includes` is `strIncludes`,
`String.prototype.toLowerCase` is `toLowerStr`, and
`String.prototype.padStart` is `padStart`.
-/

/-- One step of `charsIncludes`: whether `sub` is a prefix of the character
list, comparing characters left to right. -/
def charsIsPrefixOf : List Char → List Char → Bool
  | [], _ => true
  | _ :: _, [] => false
  | a :: as, b :: bs => a == b && charsIsPrefixOf as bs

/-- `charsIncludes sub hay` holds when `sub` occurs contiguously in `hay`,
the character-list semantics of JavaScript `hay.includes(sub)`. -/
def charsIncludes (sub : List Char) : List Char → Bool
  | [] => charsIsPrefixOf sub []
  | b :: bs => charsIsPrefixOf sub (b :: bs) || charsIncludes sub bs

/-- JavaScript `s.includes(sub)` on strings, via the underlying character lists. -/
def strIncludes (s sub : String) : Bool :=
  charsIncludes sub.data s.data

/-- JavaScript `s.toLowerCase()` (the sample data is ASCII, where
`Char.toLower` agrees with the JavaScript lowering). -/
def toLowerStr (s : String) : String :=
  ⟨s.data.map Char.toLower⟩

/-- JavaScript `s.padStart(n, c)`: left-pad `s` with `c` up to length `n`. -/
def padStart (s : String) (n : Nat) (c : Char) : String :=
  ⟨List.replicate (n - s.data.length) c ++ s.data⟩

/-- The display treatment returned by the badge lookup helpers: the shadcn
`variant` name and the extra `className` string. -/
structure BadgeStyle where
  variant : String
  className : String
deriving DecidableEq, Repr

/-- Property names every plain JavaScript object literal inherits from
`Object.prototype`.  A lookup `variants[key]` on an object literal walks the
prototype chain, so for these keys it returns the truthy inherited member
(a function, or the prototype object for `__proto__`) and an
`|| fallback` after the lookup does not fire. -/
def objectPrototypeKeys : List String :=
  ["constructor", "hasOwnProperty", "isPrototypeOf", "propertyIsEnumerable",
   "toLocaleString", "toString", "valueOf", "__proto__",
   "__defineGetter__", "__defineSetter__", "__lookupGetter__",
   "__lookupSetter__"]

/-- The runtime result of the badge helpers' duck-typed lookup
`variants[key] || default`: either a badge style (an own key of the
`variants` literal, or the default when the lookup is `undefined`), or a
truthy member inherited from `Object.prototype`, which suppresses the
fallback. -/
inductive LookupResult where
  | style (s : BadgeStyle)
  | inherited (key : String)
deriving DecidableEq, Repr

/-! ## DigitalIds.tsx -/

/-- The `TouristRecord` interface of `DigitalIds.tsx`. -/
structure TouristRecord where
  id : String
  name : String
  digitalId : String
  nationality : String
  itinerary : List String
  emergencyContact : String
  status : String
  lastSeen : String
  location : String
deriving DecidableEq, Repr

/-- The `mockTouristData` sample collection of `DigitalIds.tsx`. -/
def mockTouristData : List TouristRecord :=
  [{ id := "1", name := "John Smith", digitalId := "TID-2024-001",
     nationality := "USA",
     itinerary := ["Red Fort", "India Gate", "Qutub Minar"],
     emergencyContact := "+1-555-0123", status := "active",
     lastSeen := "2 mins ago", location := "Red Fort Area" },
   { id := "2", name := "Marie Dubois", digitalId := "TID-2024-002",
     nationality := "France",
     itinerary := ["Lotus Temple", "Humayun Tomb"],
     emergencyContact := "+33-1-4567-8901", status := "active",
     lastSeen := "15 mins ago", location := "Lotus Temple" },
   { id := "3", name := "Hiroshi Tanaka", digitalId := "TID-2024-003",
     nationality := "Japan",
     itinerary := ["India Gate", "Red Fort", "Chandni Chowk"],
     emergencyContact := "+81-3-1234-5678", status := "alert",
     lastSeen := "1 hour ago", location := "Chandni Chowk" },
   { id := "4", name := "Emma Wilson", digitalId := "TID-2024-004",
     nationality := "UK",
     itinerary := ["Qutub Minar", "Lodhi Gardens"],
     emergencyContact := "+44-20-7123-4567", status := "inactive",
     lastSeen := "3 hours ago", location := "Lodhi Gardens" }]

/-- The predicate passed to `.filter` in `filteredData` of `DigitalIds.tsx`
(lines 74-81): search on lowercased name or digital id, conjoined with the
status and nationality dimensions, each with sentinel `"all"`. -/
def DigitalIds.matchesRecord (searchTerm statusFilter nationalityFilter : String)
    (record : TouristRecord) : Bool :=
  let matchesSearch :=
    strIncludes (toLowerStr record.name) (toLowerStr searchTerm) ||
      strIncludes (toLowerStr record.digitalId) (toLowerStr searchTerm)
  let matchesStatus := statusFilter == "all" || record.status == statusFilter
  let matchesNationality :=
    nationalityFilter == "all" || record.nationality == nationalityFilter
  matchesSearch && matchesStatus && matchesNationality

/-- `filteredData` of `DigitalIds.tsx`, generalized over the record collection
the component filters (the component always passes `mockTouristData`). -/
def DigitalIds.filteredDataOf (searchTerm statusFilter nationalityFilter : String)
    (data : List TouristRecord) : List TouristRecord :=
  data.filter (DigitalIds.matchesRecord searchTerm statusFilter nationalityFilter)

/-- `filteredData` exactly as in `DigitalIds.tsx`: the filter applied to
`mockTouristData`. -/
def DigitalIds.filteredData (searchTerm statusFilter nationalityFilter : String) :
    List TouristRecord :=
  DigitalIds.filteredDataOf searchTerm statusFilter nationalityFilter mockTouristData

/-- `getStatusBadge` of `DigitalIds.tsx` (lines 83-90): the JavaScript
lookup `variants[status] || variants.active`.  Own keys of the `variants`
literal return their badge style; a key inherited from `Object.prototype`
(e.g. `"toString"`) returns that truthy inherited member, so the `||`
fallback does not fire; only for the remaining strings is the lookup
`undefined` and the default returned. -/
def DigitalIds.getStatusBadge (status : String) : LookupResult :=
  if status = "active" then .style ⟨"default", "bg-success text-success-foreground"⟩
  else if status = "inactive" then .style ⟨"secondary", ""⟩
  else if status = "alert" then .style ⟨"destructive", ""⟩
  else if status ∈ objectPrototypeKeys then .inherited status
  else .style ⟨"default", "bg-success text-success-foreground"⟩

/-- The `stats` array of `DigitalIds.tsx` (lines 92-97), as rendered for a
given filter-control state.  The source expression reads only
`mockTouristData`; the three filter-state parameters it is rendered under are
therefore unused. -/
def DigitalIds.stats (_searchTerm _statusFilter _nationalityFilter : String) :
    List (String × String) :=
  [("Total Records", toString mockTouristData.length),
   ("Active Tourists",
     toString (mockTouristData.filter (fun r => r.status == "active")).length),
   ("Alert Status",
     toString (mockTouristData.filter (fun r => r.status == "alert")).length),
   ("Nationalities",
     toString (mockTouristData.map (fun r => r.nationality)).eraseDups.length)]

/-! ## Alerts.tsx -/

/-- The `Alert` interface of `Alerts.tsx`; the `[number, number]`
geocoordinate is embedded as a pair of rationals (the literals are exact
decimals). -/
structure Alert where
  id : String
  touristId : String
  touristName : String
  alertType : String
  timestamp : String
  status : String
  location : Rat × Rat
  description : String
  priority : String
deriving DecidableEq, Repr

/-- The `mockAlerts` sample collection of `Alerts.tsx`. -/
def mockAlerts : List Alert :=
  [{ id := "1", touristId := "TID-2024-003", touristName := "Hiroshi Tanaka",
     alertType := "geo-fence", timestamp := "2024-01-15 14:30:00",
     status := "active", location := (28.6562, 77.2410),
     description := "Tourist entered restricted area near Red Fort",
     priority := "high" },
   { id := "2", touristId := "TID-2024-001", touristName := "John Smith",
     alertType := "panic", timestamp := "2024-01-15 13:15:00",
     status := "investigating", location := (28.6139, 77.2090),
     description := "Emergency button pressed by tourist",
     priority := "high" },
   { id := "3", touristId := "TID-2024-002", touristName := "Marie Dubois",
     alertType := "anomaly", timestamp := "2024-01-15 12:45:00",
     status := "resolved", location := (28.5562, 77.1000),
     description := "Unusual movement pattern detected",
     priority := "medium" }]

/-- The predicate passed to `.filter` in `filteredAlerts` of `Alerts.tsx`
(lines 80-84): status and priority dimensions, each with sentinel `"all"`. -/
def Alerts.matchesAlert (statusFilter priorityFilter : String) (alert : Alert) : Bool :=
  let matchesStatus := statusFilter == "all" || alert.status == statusFilter
  let matchesPriority := priorityFilter == "all" || alert.priority == priorityFilter
  matchesStatus && matchesPriority

/-- `filteredAlerts` of `Alerts.tsx`, generalized over the alert collection
the component filters (the component always passes `mockAlerts`). -/
def Alerts.filteredAlertsOf (statusFilter priorityFilter : String)
    (alerts : List Alert) : List Alert :=
  alerts.filter (Alerts.matchesAlert statusFilter priorityFilter)

/-- `filteredAlerts` exactly as in `Alerts.tsx`: the filter applied to
`mockAlerts`. -/
def Alerts.filteredAlerts (statusFilter priorityFilter : String) : List Alert :=
  Alerts.filteredAlertsOf statusFilter priorityFilter mockAlerts

/-- `getStatusBadge` of `Alerts.tsx` (lines 127-134): the JavaScript lookup
`variants[status] || variants.active`, with the same prototype-chain
behavior as the other badge helpers. -/
def Alerts.getStatusBadge (status : String) : LookupResult :=
  if status = "active" then .style ⟨"destructive", ""⟩
  else if status = "investigating" then .style ⟨"default", "bg-warning text-warning-foreground"⟩
  else if status = "resolved" then .style ⟨"default", "bg-success text-success-foreground"⟩
  else if status ∈ objectPrototypeKeys then .inherited status
  else .style ⟨"destructive", ""⟩

/-- `getPriorityBadge` of `Alerts.tsx` (lines 136-143): the JavaScript
lookup `variants[priority] || variants.medium`, with the same
prototype-chain behavior as the other badge helpers. -/
def Alerts.getPriorityBadge (priority : String) : LookupResult :=
  if priority = "high" then .style ⟨"destructive", ""⟩
  else if priority = "medium" then .style ⟨"default", "bg-warning text-warning-foreground"⟩
  else if priority = "low" then .style ⟨"secondary", ""⟩
  else if priority ∈ objectPrototypeKeys then .inherited priority
  else .style ⟨"default", "bg-warning text-warning-foreground"⟩

/-- The `stats` array of `Alerts.tsx` (lines 159-164), as rendered for a given
filter-control state.  Unlike the other two pages, the source expression reads
`filteredAlerts`, so the values depend on the current filter selection. -/
def Alerts.stats (statusFilter priorityFilter : String) : List (String × String) :=
  [("Active Alerts",
     toString ((Alerts.filteredAlerts statusFilter priorityFilter).filter
       (fun a => a.status == "active")).length),
   ("High Priority",
     toString ((Alerts.filteredAlerts statusFilter priorityFilter).filter
       (fun a => a.priority == "high")).length),
   ("Under Investigation",
     toString ((Alerts.filteredAlerts statusFilter priorityFilter).filter
       (fun a => a.status == "investigating")).length),
   ("Resolved Today",
     toString ((Alerts.filteredAlerts statusFilter priorityFilter).filter
       (fun a => a.status == "resolved")).length)]

/-! ## The E-FIR case page -/

/-- The `EFIRCase` interface of the E-FIR page. -/
structure EFIRCase where
  id : String
  firNumber : String
  touristId : String
  touristName : String
  caseType : String
  lastSeen : String
  location : String
  description : String
  status : String
  createdAt : String
  assignedOfficer : String
  priority : String
deriving DecidableEq, Repr

/-- The `NewEFIRForm` interface of the E-FIR page: the fields of the
new-case form. -/
structure NewEFIRForm where
  touristId : String
  lastSeen : String
  location : String
  description : String
  caseType : String
  reporterName : String
  reporterContact : String
deriving DecidableEq, Repr

/-- The `mockEFIRCases` sample collection of the E-FIR page. -/
def mockEFIRCases : List EFIRCase :=
  [{ id := "1", firNumber := "FIR-2024-001", touristId := "TID-2024-005",
     touristName := "Sarah Johnson", caseType := "missing",
     lastSeen := "2024-01-15 10:30:00", location := "Chandni Chowk Market",
     description := "Tourist was separated from group in crowded market area. Last seen wearing blue jacket and carrying red backpack.",
     status := "investigating", createdAt := "2024-01-15 11:00:00",
     assignedOfficer := "Insp. Rajesh Kumar", priority := "high" },
   { id := "2", firNumber := "FIR-2024-002", touristId := "TID-2024-006",
     touristName := "Michael Brown", caseType := "theft",
     lastSeen := "2024-01-14 16:15:00", location := "India Gate",
     description := "Tourist reported theft of passport and wallet while taking photographs near India Gate.",
     status := "resolved", createdAt := "2024-01-14 17:00:00",
     assignedOfficer := "Const. Priya Sharma", priority := "medium" }]

/-- The predicate passed to `.filter` in `filteredCases` of the E-FIR page
(lines 86-88): a single status dimension with sentinel `"all"`. -/
def EFir.matchesCase (statusFilter : String) (case : EFIRCase) : Bool :=
  statusFilter == "all" || case.status == statusFilter

/-- `filteredCases` of the E-FIR page, generalized over the case collection
the component filters (the component always passes `mockEFIRCases`). -/
def EFir.filteredCasesOf (statusFilter : String) (cases : List EFIRCase) :
    List EFIRCase :=
  cases.filter (EFir.matchesCase statusFilter)

/-- `filteredCases` exactly as in the E-FIR page: the filter applied to
`mockEFIRCases`. -/
def EFir.filteredCases (statusFilter : String) : List EFIRCase :=
  EFir.filteredCasesOf statusFilter mockEFIRCases

/-- `getStatusBadge` of the E-FIR page (lines 132-140): the JavaScript
lookup `variants[status] || variants.pending`, with the same
prototype-chain behavior as the other badge helpers. -/
def EFir.getStatusBadge (status : String) : LookupResult :=
  if status = "pending" then .style ⟨"outline", "text-warning bg-warning/10"⟩
  else if status = "investigating" then .style ⟨"default", "bg-info text-info-foreground"⟩
  else if status = "resolved" then .style ⟨"default", "bg-success text-success-foreground"⟩
  else if status = "closed" then .style ⟨"secondary", ""⟩
  else if status ∈ objectPrototypeKeys then .inherited status
  else .style ⟨"outline", "text-warning bg-warning/10"⟩

/-- `getPriorityBadge` of the E-FIR page (lines 142-149): the JavaScript
lookup `variants[priority] || variants.medium`, with the same
prototype-chain behavior as the other badge helpers. -/
def EFir.getPriorityBadge (priority : String) : LookupResult :=
  if priority = "high" then .style ⟨"destructive", ""⟩
  else if priority = "medium" then .style ⟨"default", "bg-warning text-warning-foreground"⟩
  else if priority = "low" then .style ⟨"secondary", ""⟩
  else if priority ∈ objectPrototypeKeys then .inherited priority
  else .style ⟨"default", "bg-warning text-warning-foreground"⟩

/-- The `stats` array of the E-FIR page (lines 161-166), as rendered for a
given filter-control state.  The source expression reads only
`mockEFIRCases`, so the filter-state parameter it is rendered under is
unused. -/
def EFir.stats (_statusFilter : String) : List (String × String) :=
  [("Total Cases", toString mockEFIRCases.length),
   ("Active Cases",
     toString (mockEFIRCases.filter
       (fun c => c.status == "investigating" || c.status == "pending")).length),
   ("Resolved Today",
     toString (mockEFIRCases.filter (fun c => c.status == "resolved")).length),
   ("High Priority",
     toString (mockEFIRCases.filter (fun c => c.priority == "high")).length)]

/-- The FIR reference number synthesized in `handleSubmit` of the E-FIR page
(line 98): the template string applied to the case collection length. -/
def EFir.firNumber (cases : List EFIRCase) : String :=
  "FIR-2024-" ++ padStart (toString (cases.length + 1)) 3 '0'

/-- The value stored in `generatedFIRNumber` when `handleSubmit` runs on a
submitted form: the source computes it from `mockEFIRCases.length` alone, so
the form-data parameter is unused. -/
def EFir.generatedFIRNumber (_formData : NewEFIRForm) : String :=
  EFir.firNumber mockEFIRCases

/-! ## JavaScript semantics of the status comparison on an absent field

`DigitalIds.tsx` line 77 evaluates
`statusFilter === "all" || record.status === statusFilter`.  The TypeScript
interface declares `status` as always present, but at runtime an absent or
null field compares unequal (`===`) to every string.  The claim about absent
fields is settled against this embedding of the same source line over an
optional field. -/

/-- JavaScript strict equality of a possibly-absent string field with a
string: an absent (`undefined`/`null`) value is `===`-unequal to every
string. -/
def jsStrictEq (v : Option String) (s : String) : Bool :=
  match v with
  | some t => t == s
  | none => false

/-- Line 77 of `DigitalIds.tsx` (`matchesStatus`) over a possibly-absent
status field, under JavaScript `===` semantics. -/
def DigitalIds.matchesStatusLoose (status : Option String) (statusFilter : String) :
    Bool :=
  statusFilter == "all" || jsStrictEq status statusFilter

/-- Line 82 of `Alerts.tsx` (`matchesPriority`,
`priorityFilter === "all" || alert.priority === priorityFilter`) over a
possibly-absent priority field, under JavaScript `===` semantics. -/
def Alerts.matchesPriorityLoose (priority : Option String) (priorityFilter : String) :
    Bool :=
  priorityFilter == "all" || jsStrictEq priority priorityFilter

/-- A record whose `status` lies outside the
`active | inactive | alert` enumeration of `DigitalIds.tsx`, used to witness
the handling of unrecognized enum values. -/
def probeRecord : TouristRecord :=
  { id := "9", name := "Zed Example", digitalId := "TID-X-999",
    nationality := "Mars", itinerary := [], emergencyContact := "",
    status := "unknown", lastSeen := "", location := "" }

/-- An alert whose `status` and `priority` both lie outside the declared
enumerations of `Alerts.tsx`, used to witness the handling of unrecognized
enum values on both filter dimensions. -/
def probeAlert : Alert :=
  { id := "9", touristId := "TID-X-999", touristName := "Zed Example",
    alertType := "anomaly", timestamp := "2024-01-15 00:00:00",
    status := "unknown", location := (0, 0),
    description := "probe", priority := "critical" }

/-- A case whose `status` lies outside the
`pending | investigating | resolved | closed` enumeration of the E-FIR page,
used to witness the handling of unrecognized enum values. -/
def probeCase : EFIRCase :=
  { id := "9", firNumber := "FIR-X-999", touristId := "TID-X-999",
    touristName := "Zed Example", caseType := "missing",
    lastSeen := "2024-01-15 00:00:00", location := "probe",
    description := "probe", status := "archived",
    createdAt := "2024-01-15 00:00:00", assignedOfficer := "",
    priority := "medium" }

/-! ## Helper lemmas -/

theorem charsIncludes_nil_left (l : List Char) : charsIncludes [] l = true := by
  cases l with
  | nil => rfl
  | cons b bs => simp [charsIncludes, charsIsPrefixOf]

theorem strIncludes_empty (s : String) : strIncludes s "" = true := by
  have h : ("" : String).data = [] := rfl
  simp [strIncludes, h, charsIncludes_nil_left]

theorem toLowerStr_empty : toLowerStr "" = "" := rfl

theorem strIncludes_toLowerStr_empty (s : String) :
    strIncludes s (toLowerStr "") = true := by
  rw [toLowerStr_empty]; exact strIncludes_empty s

theorem matchesRecord_sentinels (r : TouristRecord) :
    DigitalIds.matchesRecord "" "all" "all" r = true := by
  simp [DigitalIds.matchesRecord, strIncludes_toLowerStr_empty]

theorem matchesAlert_sentinels (a : Alert) :
    Alerts.matchesAlert "all" "all" a = true := by
  simp [Alerts.matchesAlert]

theorem matchesCase_sentinel (c : EFIRCase) :
    EFir.matchesCase "all" c = true := by
  simp [EFir.matchesCase]

theorem sentinel_or_eq_not {v f : String} {l : List String} (hv : v ∉ l)
    (hf : f ∈ l) (hall : ("all" : String) ∉ l) : ¬(f = "all" ∨ v = f) := by
  rintro (rfl | rfl)
  · exact hall hf
  · exact hv hf

theorem mem_filteredDataOf (C : List TouristRecord) (q sf nf : String)
    (r : TouristRecord) :
    r ∈ DigitalIds.filteredDataOf q sf nf C ↔
      r ∈ C ∧
        (strIncludes (toLowerStr r.name) (toLowerStr q) = true ∨
          strIncludes (toLowerStr r.digitalId) (toLowerStr q) = true) ∧
        (sf = "all" ∨ r.status = sf) ∧ (nf = "all" ∨ r.nationality = nf) := by
  rw [DigitalIds.filteredDataOf, List.mem_filter]
  simp only [DigitalIds.matchesRecord, Bool.and_eq_true, Bool.or_eq_true,
    beq_iff_eq]
  tauto

theorem mem_filteredAlertsOf (C : List Alert) (sf pf : String) (a : Alert) :
    a ∈ Alerts.filteredAlertsOf sf pf C ↔
      a ∈ C ∧ (sf = "all" ∨ a.status = sf) ∧ (pf = "all" ∨ a.priority = pf) := by
  rw [Alerts.filteredAlertsOf, List.mem_filter]
  simp only [Alerts.matchesAlert, Bool.and_eq_true, Bool.or_eq_true, beq_iff_eq]

theorem mem_filteredCasesOf (C : List EFIRCase) (sf : String) (c : EFIRCase) :
    c ∈ EFir.filteredCasesOf sf C ↔ c ∈ C ∧ (sf = "all" ∨ c.status = sf) := by
  rw [EFir.filteredCasesOf, List.mem_filter]
  simp only [EFir.matchesCase, Bool.or_eq_true, beq_iff_eq]

/-! ## Claims -/

/-- C4: filtering with every dimension set to the sentinel `"all"` and the
empty search string is the identity on the collection: every record is kept,
in its original order, on all three pages. -/
theorem filter_sentinels_identity :
    (∀ C : List TouristRecord, DigitalIds.filteredDataOf "" "all" "all" C = C) ∧
    (∀ C : List Alert, Alerts.filteredAlertsOf "all" "all" C = C) ∧
    (∀ C : List EFIRCase, EFir.filteredCasesOf "all" C = C) := by
  refine ⟨fun C => ?_, fun C => ?_, fun C => ?_⟩
  · exact List.filter_eq_self.mpr fun a _ => matchesRecord_sentinels a
  · exact List.filter_eq_self.mpr fun a _ => matchesAlert_sentinels a
  · exact List.filter_eq_self.mpr fun a _ => matchesCase_sentinel a

/-- C5: filtering is idempotent: re-filtering an already-filtered collection
with the same configuration removes nothing further, on all three pages. -/
theorem filter_idempotent :
    (∀ (C : List TouristRecord) (q sf nf : String),
        DigitalIds.filteredDataOf q sf nf (DigitalIds.filteredDataOf q sf nf C) =
          DigitalIds.filteredDataOf q sf nf C) ∧
    (∀ (C : List Alert) (sf pf : String),
        Alerts.filteredAlertsOf sf pf (Alerts.filteredAlertsOf sf pf C) =
          Alerts.filteredAlertsOf sf pf C) ∧
    (∀ (C : List EFIRCase) (sf : String),
        EFir.filteredCasesOf sf (EFir.filteredCasesOf sf C) =
          EFir.filteredCasesOf sf C) := by
  refine ⟨fun C q sf nf => ?_, fun C sf pf => ?_, fun C sf => ?_⟩ <;>
    exact List.filter_eq_self.mpr fun a ha => List.of_mem_filter ha

/-- C6: the filtered alert list is a subsequence of the input collection:
every record of the result occurs in the input, no occurrence is duplicated
(per-record multiplicity does not grow), and relative order is preserved
(`List.Sublist` is exactly the subsequence relation). -/
theorem filtered_is_subsequence :
    (∀ (C : List Alert) (sf pf : String),
        List.Sublist (Alerts.filteredAlertsOf sf pf C) C) ∧
    (∀ (C : List Alert) (sf pf : String) (a : Alert),
        a ∈ Alerts.filteredAlertsOf sf pf C → a ∈ C) ∧
    (∀ (C : List Alert) (sf pf : String) (a : Alert),
        List.count a (Alerts.filteredAlertsOf sf pf C) ≤ List.count a C) := by
  refine ⟨fun C sf pf => List.filter_sublist C, fun C sf pf a ha => ?_, fun C sf pf a => ?_⟩
  · exact (List.filter_sublist C).subset ha
  · exact (List.filter_sublist C).count_le a

/-- C10: the empty search term imposes no constraint: the empty string is a
substring of every string, so filtering `DigitalIds` records with an empty
search term equals filtering with the search conjunct removed — the empty
string acts as the search dimension's "no filter" sentinel. -/
theorem empty_search_is_sentinel :
    (∀ s : String, strIncludes s (toLowerStr "") = true) ∧
    (∀ (C : List TouristRecord) (sf nf : String),
        DigitalIds.filteredDataOf "" sf nf C =
          C.filter (fun r =>
            (sf == "all" || r.status == sf) &&
              (nf == "all" || r.nationality == nf))) := by
  refine ⟨strIncludes_toLowerStr_empty, fun C sf nf => ?_⟩
  unfold DigitalIds.filteredDataOf
  apply List.filter_congr
  intro r _
  simp [DigitalIds.matchesRecord, strIncludes_toLowerStr_empty]

/-- C1: a record appears in the filtered output iff, for each dimension whose
selected value is not the sentinel `"all"`, the record's field equals the
selection exactly (case-sensitively), and — on the page with a search box —
the lowercased search string occurs in the lowercased name or lowercased
identifier; all predicates are conjoined with AND, on all three pages. -/
theorem filter_semantics_iff :
    (∀ (C : List TouristRecord) (q sf nf : String) (r : TouristRecord),
        r ∈ DigitalIds.filteredDataOf q sf nf C ↔
          r ∈ C ∧
            (strIncludes (toLowerStr r.name) (toLowerStr q) = true ∨
              strIncludes (toLowerStr r.digitalId) (toLowerStr q) = true) ∧
            (sf ≠ "all" → r.status = sf) ∧
            (nf ≠ "all" → r.nationality = nf)) ∧
    (∀ (C : List Alert) (sf pf : String) (a : Alert),
        a ∈ Alerts.filteredAlertsOf sf pf C ↔
          a ∈ C ∧ (sf ≠ "all" → a.status = sf) ∧ (pf ≠ "all" → a.priority = pf)) ∧
    (∀ (C : List EFIRCase) (sf : String) (c : EFIRCase),
        c ∈ EFir.filteredCasesOf sf C ↔
          c ∈ C ∧ (sf ≠ "all" → c.status = sf)) := by
  refine ⟨fun C q sf nf r => ?_, fun C sf pf a => ?_, fun C sf c => ?_⟩
  · rw [DigitalIds.filteredDataOf, List.mem_filter]
    simp only [DigitalIds.matchesRecord, Bool.and_eq_true, Bool.or_eq_true, beq_iff_eq]
    tauto
  · rw [Alerts.filteredAlertsOf, List.mem_filter]
    simp only [Alerts.matchesAlert, Bool.and_eq_true, Bool.or_eq_true, beq_iff_eq]
    tauto
  · rw [EFir.filteredCasesOf, List.mem_filter]
    simp only [EFir.matchesCase, Bool.or_eq_true, beq_iff_eq]
    tauto

/-- C2 counterexample: the `Alerts` page statistics are not independent of
the filter configuration — selecting status `"resolved"` changes the
rendered statistic values. -/
theorem alerts_stats_depend_on_filter :
    Alerts.stats "resolved" "all" ≠ Alerts.stats "all" "all" := by decide

/-- C2 (amended): the `DigitalIds` and E-FIR page statistics are computed over
the full unfiltered sample collection and so are independent of the filter
configuration, but the `Alerts` page statistics are computed over the
filtered subset: with status `"resolved"` selected they drop to the counts of
the single resolved alert, differing from the unfiltered values. -/
theorem stats_collection_sources :
    (∀ q sf nf : String, DigitalIds.stats q sf nf = DigitalIds.stats "" "all" "all") ∧
    (∀ sf : String, EFir.stats sf = EFir.stats "all") ∧
    Alerts.stats "resolved" "all" =
      [("Active Alerts", "0"), ("High Priority", "0"),
       ("Under Investigation", "0"), ("Resolved Today", "1")] ∧
    Alerts.stats "all" "all" =
      [("Active Alerts", "1"), ("High Priority", "2"),
       ("Under Investigation", "1"), ("Resolved Today", "1")] :=
  ⟨fun _ _ _ => rfl, fun _ => rfl, by decide, by decide⟩

/-- C3 counterexample: on the `DigitalIds` page with status filter
`"active"`, the rendered "Alert Status" statistic is `1` (the unfiltered
count), while the filtered result contains `0` records with status
`"alert"` — so the statistic is not a count over the filtered result and is
not `0` as the claim states. -/
theorem digitalIds_alert_stat_unfiltered :
    (DigitalIds.stats "" "active" "all").filter (fun p => p.1 == "Alert Status") =
      [("Alert Status", "1")] ∧
    ((DigitalIds.filteredData "" "active" "all").filter
      (fun r => r.status == "alert")).length = 0 :=
  ⟨by decide, by decide⟩

/-- C3 (amended): the `DigitalIds` statistics are computed over the full
unfiltered collection, independent of the filter configuration; filtering the
four-record sample by status `"active"` yields exactly the two active
records, with "Active Tourists" = 2 but "Alert Status" = 1 (the unfiltered
count), not 0. -/
theorem digitalIds_stats_are_unfiltered :
    DigitalIds.filteredData "" "active" "all" = mockTouristData.take 2 ∧
    DigitalIds.stats "" "active" "all" =
      [("Total Records", "4"), ("Active Tourists", "2"),
       ("Alert Status", "1"), ("Nationalities", "4")] ∧
    (∀ q sf nf : String, DigitalIds.stats q sf nf = DigitalIds.stats "" "all" "all") :=
  ⟨by decide, by decide, fun _ _ _ => rfl⟩

/-- C7: filtering is total (a pure Lean function of the collection and the
configuration, so it never raises); on each page and each filter dimension, a
record whose status or priority lies outside that dimension's declared
enumeration matches no concrete (non-sentinel) selection for the dimension
and is excluded from that filter's result, yet still passes whenever the
dimension's selection is the sentinel `"all"`; and under the JavaScript
semantics of the same comparisons an absent (`undefined`/`null`) status or
priority field behaves the same way. -/
theorem unrecognized_enum_handling :
    (∀ (C : List TouristRecord) (q nf f : String) (r : TouristRecord),
        r.status ∉ (["active", "inactive", "alert"] : List String) →
        f ∈ (["active", "inactive", "alert"] : List String) →
        r ∉ DigitalIds.filteredDataOf q f nf C) ∧
    (∀ (C : List TouristRecord) (q nf : String) (r : TouristRecord),
        r ∈ C →
        (strIncludes (toLowerStr r.name) (toLowerStr q) = true ∨
          strIncludes (toLowerStr r.digitalId) (toLowerStr q) = true) →
        (nf = "all" ∨ r.nationality = nf) →
        r ∈ DigitalIds.filteredDataOf q "all" nf C) ∧
    (∀ (C : List Alert) (pf f : String) (a : Alert),
        a.status ∉ (["active", "investigating", "resolved"] : List String) →
        f ∈ (["active", "investigating", "resolved"] : List String) →
        a ∉ Alerts.filteredAlertsOf f pf C) ∧
    (∀ (C : List Alert) (pf : String) (a : Alert),
        a ∈ C → (pf = "all" ∨ a.priority = pf) →
        a ∈ Alerts.filteredAlertsOf "all" pf C) ∧
    (∀ (C : List Alert) (sf p : String) (a : Alert),
        a.priority ∉ (["high", "medium", "low"] : List String) →
        p ∈ (["high", "medium", "low"] : List String) →
        a ∉ Alerts.filteredAlertsOf sf p C) ∧
    (∀ (C : List Alert) (sf : String) (a : Alert),
        a ∈ C → (sf = "all" ∨ a.status = sf) →
        a ∈ Alerts.filteredAlertsOf sf "all" C) ∧
    (∀ (C : List EFIRCase) (f : String) (c : EFIRCase),
        c.status ∉ (["pending", "investigating", "resolved", "closed"] : List String) →
        f ∈ (["pending", "investigating", "resolved", "closed"] : List String) →
        c ∉ EFir.filteredCasesOf f C) ∧
    (∀ (C : List EFIRCase) (c : EFIRCase), c ∈ C → c ∈ EFir.filteredCasesOf "all" C) ∧
    (∀ st f : String,
        st ∉ (["active", "inactive", "alert"] : List String) →
        f ∈ (["active", "inactive", "alert"] : List String) →
        DigitalIds.matchesStatusLoose (some st) f = false) ∧
    (∀ f : String, f ≠ "all" → DigitalIds.matchesStatusLoose none f = false) ∧
    (∀ st : Option String, DigitalIds.matchesStatusLoose st "all" = true) ∧
    (∀ p f : String,
        p ∉ (["high", "medium", "low"] : List String) →
        f ∈ (["high", "medium", "low"] : List String) →
        Alerts.matchesPriorityLoose (some p) f = false) ∧
    (∀ f : String, f ≠ "all" → Alerts.matchesPriorityLoose none f = false) ∧
    (∀ p : Option String, Alerts.matchesPriorityLoose p "all" = true) := by
  refine ⟨?_, ?_, ?_, ?_, ?_, ?_, ?_, ?_, ?_, ?_, ?_, ?_, ?_, ?_⟩
  · intro C q nf f r hv hf hmem
    rw [mem_filteredDataOf] at hmem
    exact sentinel_or_eq_not hv hf (by decide) hmem.2.2.1
  · intro C q nf r hmem hs hn
    exact (mem_filteredDataOf C q "all" nf r).mpr ⟨hmem, hs, Or.inl rfl, hn⟩
  · intro C pf f a hv hf hmem
    rw [mem_filteredAlertsOf] at hmem
    exact sentinel_or_eq_not hv hf (by decide) hmem.2.1
  · intro C pf a hmem hp
    exact (mem_filteredAlertsOf C "all" pf a).mpr ⟨hmem, Or.inl rfl, hp⟩
  · intro C sf p a hv hp hmem
    rw [mem_filteredAlertsOf] at hmem
    exact sentinel_or_eq_not hv hp (by decide) hmem.2.2
  · intro C sf a hmem hs
    exact (mem_filteredAlertsOf C sf "all" a).mpr ⟨hmem, hs, Or.inl rfl⟩
  · intro C f c hv hf hmem
    rw [mem_filteredCasesOf] at hmem
    exact sentinel_or_eq_not hv hf (by decide) hmem.2
  · intro C c hmem
    exact (mem_filteredCasesOf C "all" c).mpr ⟨hmem, Or.inl rfl⟩
  · intro st f hv hf
    obtain ⟨h1, h2⟩ := not_or.mp (sentinel_or_eq_not hv hf (by decide))
    simp [DigitalIds.matchesStatusLoose, jsStrictEq, h1, h2]
  · intro f hf
    simp [DigitalIds.matchesStatusLoose, jsStrictEq, hf]
  · intro st
    simp [DigitalIds.matchesStatusLoose]
  · intro p f hv hf
    obtain ⟨h1, h2⟩ := not_or.mp (sentinel_or_eq_not hv hf (by decide))
    simp [Alerts.matchesPriorityLoose, jsStrictEq, h1, h2]
  · intro f hf
    simp [Alerts.matchesPriorityLoose, jsStrictEq, hf]
  · intro p
    simp [Alerts.matchesPriorityLoose]

/-- Witness for C7 at the concrete records `probeRecord` (status
`"unknown"`), `probeAlert` (status `"unknown"`, priority `"critical"`) and
`probeCase` (status `"archived"`): each is excluded under a concrete
selection on the unrecognized dimension and included under the sentinel,
and the loose (absent-field) comparisons evaluate as stated. -/
theorem unrecognized_enum_handling_witness :
    probeRecord ∉ DigitalIds.filteredDataOf "" "active" "all" [probeRecord] ∧
    probeRecord ∈ DigitalIds.filteredDataOf "" "all" "all" [probeRecord] ∧
    probeAlert ∉ Alerts.filteredAlertsOf "active" "all" [probeAlert] ∧
    probeAlert ∈ Alerts.filteredAlertsOf "all" "all" [probeAlert] ∧
    probeAlert ∉ Alerts.filteredAlertsOf "all" "high" [probeAlert] ∧
    probeCase ∉ EFir.filteredCasesOf "pending" [probeCase] ∧
    probeCase ∈ EFir.filteredCasesOf "all" [probeCase] ∧
    DigitalIds.matchesStatusLoose (some "unknown") "active" = false ∧
    DigitalIds.matchesStatusLoose none "active" = false ∧
    DigitalIds.matchesStatusLoose none "all" = true ∧
    Alerts.matchesPriorityLoose (some "critical") "high" = false ∧
    Alerts.matchesPriorityLoose none "high" = false ∧
    Alerts.matchesPriorityLoose none "all" = true :=
  ⟨unrecognized_enum_handling.1 [probeRecord] "" "all" "active" probeRecord
      (by decide) (by decide),
   unrecognized_enum_handling.2.1 [probeRecord] "" "all" probeRecord
      (List.Mem.head _) (Or.inl (by decide)) (Or.inl rfl),
   unrecognized_enum_handling.2.2.1 [probeAlert] "all" "active" probeAlert
      (by decide) (by decide),
   unrecognized_enum_handling.2.2.2.1 [probeAlert] "all" probeAlert
      (List.Mem.head _) (Or.inl rfl),
   unrecognized_enum_handling.2.2.2.2.1 [probeAlert] "all" "high" probeAlert
      (by decide) (by decide),
   unrecognized_enum_handling.2.2.2.2.2.2.1 [probeCase] "pending" probeCase
      (by decide) (by decide),
   unrecognized_enum_handling.2.2.2.2.2.2.2.1 [probeCase] probeCase
      (List.Mem.head _),
   unrecognized_enum_handling.2.2.2.2.2.2.2.2.1 "unknown" "active"
      (by decide) (by decide),
   unrecognized_enum_handling.2.2.2.2.2.2.2.2.2.1 "active" (by decide),
   unrecognized_enum_handling.2.2.2.2.2.2.2.2.2.2.1 none,
   unrecognized_enum_handling.2.2.2.2.2.2.2.2.2.2.2.1 "critical" "high"
      (by decide) (by decide),
   unrecognized_enum_handling.2.2.2.2.2.2.2.2.2.2.2.2.1 "high" (by decide),
   unrecognized_enum_handling.2.2.2.2.2.2.2.2.2.2.2.2.2 none⟩

/-- C8 counterexample: at the unrecognized input `"toString"` — the name of
a member every object literal inherits from `Object.prototype` — each badge
helper's duck-typed lookup returns the truthy inherited member, so the
`||` fallback never fires and the defined default display treatment is not
returned, refuting the universal fallback claim. -/
theorem badge_lookup_prototype_leak :
    DigitalIds.getStatusBadge "toString" = .inherited "toString" ∧
    Alerts.getStatusBadge "toString" = .inherited "toString" ∧
    Alerts.getPriorityBadge "toString" = .inherited "toString" ∧
    EFir.getStatusBadge "toString" = .inherited "toString" ∧
    EFir.getPriorityBadge "toString" = .inherited "toString" ∧
    DigitalIds.getStatusBadge "toString" ≠ DigitalIds.getStatusBadge "active" ∧
    Alerts.getStatusBadge "toString" ≠ Alerts.getStatusBadge "active" ∧
    Alerts.getPriorityBadge "toString" ≠ Alerts.getPriorityBadge "medium" ∧
    EFir.getStatusBadge "toString" ≠ EFir.getStatusBadge "pending" ∧
    EFir.getPriorityBadge "toString" ≠ EFir.getPriorityBadge "medium" :=
  ⟨by decide, by decide, by decide, by decide, by decide, by decide, by decide,
   by decide, by decide, by decide⟩

/-- C8 (amended): every badge lookup helper is total and never fails: a
recognized enumeration value returns that value's display treatment, and an
unrecognized string that is not the name of an `Object.prototype` member
returns the defined default treatment (the `active` variant for the
`DigitalIds`/`Alerts` status helpers, the `pending` variant for the E-FIR
status helper, the `medium` variant for both priority helpers); but for the
name of an `Object.prototype` member (e.g. `"toString"`) the duck-typed
lookup returns the truthy inherited member instead, so the fallback does not
fire. -/
theorem badge_lookup_behavior :
    DigitalIds.getStatusBadge "active" = .style ⟨"default", "bg-success text-success-foreground"⟩ ∧
    DigitalIds.getStatusBadge "inactive" = .style ⟨"secondary", ""⟩ ∧
    DigitalIds.getStatusBadge "alert" = .style ⟨"destructive", ""⟩ ∧
    (∀ s : String, s ∉ (["active", "inactive", "alert"] : List String) →
        s ∉ objectPrototypeKeys →
        DigitalIds.getStatusBadge s = DigitalIds.getStatusBadge "active") ∧
    (∀ s : String, s ∉ (["active", "inactive", "alert"] : List String) →
        s ∈ objectPrototypeKeys →
        DigitalIds.getStatusBadge s = .inherited s) ∧
    Alerts.getStatusBadge "active" = .style ⟨"destructive", ""⟩ ∧
    Alerts.getStatusBadge "investigating" = .style ⟨"default", "bg-warning text-warning-foreground"⟩ ∧
    Alerts.getStatusBadge "resolved" = .style ⟨"default", "bg-success text-success-foreground"⟩ ∧
    (∀ s : String, s ∉ (["active", "investigating", "resolved"] : List String) →
        s ∉ objectPrototypeKeys →
        Alerts.getStatusBadge s = Alerts.getStatusBadge "active") ∧
    (∀ s : String, s ∉ (["active", "investigating", "resolved"] : List String) →
        s ∈ objectPrototypeKeys →
        Alerts.getStatusBadge s = .inherited s) ∧
    Alerts.getPriorityBadge "high" = .style ⟨"destructive", ""⟩ ∧
    Alerts.getPriorityBadge "medium" = .style ⟨"default", "bg-warning text-warning-foreground"⟩ ∧
    Alerts.getPriorityBadge "low" = .style ⟨"secondary", ""⟩ ∧
    (∀ p : String, p ∉ (["high", "medium", "low"] : List String) →
        p ∉ objectPrototypeKeys →
        Alerts.getPriorityBadge p = Alerts.getPriorityBadge "medium") ∧
    (∀ p : String, p ∉ (["high", "medium", "low"] : List String) →
        p ∈ objectPrototypeKeys →
        Alerts.getPriorityBadge p = .inherited p) ∧
    EFir.getStatusBadge "pending" = .style ⟨"outline", "text-warning bg-warning/10"⟩ ∧
    EFir.getStatusBadge "investigating" = .style ⟨"default", "bg-info text-info-foreground"⟩ ∧
    EFir.getStatusBadge "resolved" = .style ⟨"default", "bg-success text-success-foreground"⟩ ∧
    EFir.getStatusBadge "closed" = .style ⟨"secondary", ""⟩ ∧
    (∀ s : String, s ∉ (["pending", "investigating", "resolved", "closed"] : List String) →
        s ∉ objectPrototypeKeys →
        EFir.getStatusBadge s = EFir.getStatusBadge "pending") ∧
    (∀ s : String, s ∉ (["pending", "investigating", "resolved", "closed"] : List String) →
        s ∈ objectPrototypeKeys →
        EFir.getStatusBadge s = .inherited s) ∧
    EFir.getPriorityBadge "high" = .style ⟨"destructive", ""⟩ ∧
    EFir.getPriorityBadge "medium" = .style ⟨"default", "bg-warning text-warning-foreground"⟩ ∧
    EFir.getPriorityBadge "low" = .style ⟨"secondary", ""⟩ ∧
    (∀ p : String, p ∉ (["high", "medium", "low"] : List String) →
        p ∉ objectPrototypeKeys →
        EFir.getPriorityBadge p = EFir.getPriorityBadge "medium") ∧
    (∀ p : String, p ∉ (["high", "medium", "low"] : List String) →
        p ∈ objectPrototypeKeys →
        EFir.getPriorityBadge p = .inherited p) := by
  refine ⟨by decide, by decide, by decide, ?_, ?_, by decide, by decide, by decide,
    ?_, ?_, by decide, by decide, by decide, ?_, ?_, by decide, by decide,
    by decide, by decide, ?_, ?_, by decide, by decide, by decide, ?_, ?_⟩
  · intro s hs hp
    simp only [List.mem_cons, List.not_mem_nil, or_false, not_or] at hs
    obtain ⟨h1, h2, h3⟩ := hs
    simp [DigitalIds.getStatusBadge, h1, h2, h3, hp]
  · intro s hs hp
    simp only [List.mem_cons, List.not_mem_nil, or_false, not_or] at hs
    obtain ⟨h1, h2, h3⟩ := hs
    simp [DigitalIds.getStatusBadge, h1, h2, h3, hp]
  · intro s hs hp
    simp only [List.mem_cons, List.not_mem_nil, or_false, not_or] at hs
    obtain ⟨h1, h2, h3⟩ := hs
    simp [Alerts.getStatusBadge, h1, h2, h3, hp]
  · intro s hs hp
    simp only [List.mem_cons, List.not_mem_nil, or_false, not_or] at hs
    obtain ⟨h1, h2, h3⟩ := hs
    simp [Alerts.getStatusBadge, h1, h2, h3, hp]
  · intro p hs hp
    simp only [List.mem_cons, List.not_mem_nil, or_false, not_or] at hs
    obtain ⟨h1, h2, h3⟩ := hs
    simp [Alerts.getPriorityBadge, h1, h2, h3, hp]
  · intro p hs hp
    simp only [List.mem_cons, List.not_mem_nil, or_false, not_or] at hs
    obtain ⟨h1, h2, h3⟩ := hs
    simp [Alerts.getPriorityBadge, h1, h2, h3, hp]
  · intro s hs hp
    simp only [List.mem_cons, List.not_mem_nil, or_false, not_or] at hs
    obtain ⟨h1, h2, h3, h4⟩ := hs
    simp [EFir.getStatusBadge, h1, h2, h3, h4, hp]
  · intro s hs hp
    simp only [List.mem_cons, List.not_mem_nil, or_false, not_or] at hs
    obtain ⟨h1, h2, h3, h4⟩ := hs
    simp [EFir.getStatusBadge, h1, h2, h3, h4, hp]
  · intro p hs hp
    simp only [List.mem_cons, List.not_mem_nil, or_false, not_or] at hs
    obtain ⟨h1, h2, h3⟩ := hs
    simp [EFir.getPriorityBadge, h1, h2, h3, hp]
  · intro p hs hp
    simp only [List.mem_cons, List.not_mem_nil, or_false, not_or] at hs
    obtain ⟨h1, h2, h3⟩ := hs
    simp [EFir.getPriorityBadge, h1, h2, h3, hp]

/-- Witness for C8 at the unrecognized inputs `"bogus"` (not an
`Object.prototype` member name: every helper returns its default) and
concrete `Object.prototype` member names (every helper returns the
inherited member). -/
theorem badge_lookup_behavior_witness :
    DigitalIds.getStatusBadge "bogus" = DigitalIds.getStatusBadge "active" ∧
    DigitalIds.getStatusBadge "toString" = .inherited "toString" ∧
    Alerts.getStatusBadge "bogus" = Alerts.getStatusBadge "active" ∧
    Alerts.getStatusBadge "constructor" = .inherited "constructor" ∧
    Alerts.getPriorityBadge "bogus" = Alerts.getPriorityBadge "medium" ∧
    Alerts.getPriorityBadge "valueOf" = .inherited "valueOf" ∧
    EFir.getStatusBadge "bogus" = EFir.getStatusBadge "pending" ∧
    EFir.getStatusBadge "hasOwnProperty" = .inherited "hasOwnProperty" ∧
    EFir.getPriorityBadge "bogus" = EFir.getPriorityBadge "medium" ∧
    EFir.getPriorityBadge "toLocaleString" = .inherited "toLocaleString" := by
  obtain ⟨-, -, -, d4, d5, -, -, -, a4, a5, -, -, -, p4, p5, -, -, -, -, e4, e5,
    -, -, -, f4, f5⟩ := badge_lookup_behavior
  exact ⟨d4 "bogus" (by decide) (by decide), d5 "toString" (by decide) (by decide),
    a4 "bogus" (by decide) (by decide),
    a5 "constructor" (by decide) (by decide),
    p4 "bogus" (by decide) (by decide), p5 "valueOf" (by decide) (by decide),
    e4 "bogus" (by decide) (by decide),
    e5 "hasOwnProperty" (by decide) (by decide),
    f4 "bogus" (by decide) (by decide),
    f5 "toLocaleString" (by decide) (by decide)⟩

/-- C9: the synthesized FIR reference number is a pure formatting function of
the case collection's length alone — `"FIR-2024-"` followed by the
zero-padded three-digit rendering of `length + 1` — so it is independent of
every form field, and on the fixed two-element sample collection every
submission yields the identical, non-unique value `"FIR-2024-003"`. -/
theorem fir_number_formatting :
    (∀ cs ds : List EFIRCase, cs.length = ds.length →
        EFir.firNumber cs = EFir.firNumber ds) ∧
    (∀ cs : List EFIRCase,
        EFir.firNumber cs = "FIR-2024-" ++ padStart (toString (cs.length + 1)) 3 '0') ∧
    (∀ form : NewEFIRForm, EFir.generatedFIRNumber form = "FIR-2024-003") ∧
    EFir.firNumber mockEFIRCases = "FIR-2024-003" := by
  refine ⟨fun cs ds h => ?_, fun cs => rfl, fun form => ?_, by decide⟩
  · simp only [EFir.firNumber, h]
  · simp only [EFir.generatedFIRNumber]
    decide

/-- Witness for C9: two distinct one-element case collections yield the same
FIR number, and a concrete blank form submission yields `"FIR-2024-003"`. -/
theorem fir_number_formatting_witness :
    EFir.firNumber (mockEFIRCases.take 1) = EFir.firNumber (mockEFIRCases.drop 1) ∧
    EFir.generatedFIRNumber ⟨"", "", "", "", "", "", ""⟩ = "FIR-2024-003" :=
  ⟨fir_number_formatting.1 (mockEFIRCases.take 1) (mockEFIRCases.drop 1) (by decide),
   fir_number_formatting.2.2.1 ⟨"", "", "", "", "", "", ""⟩⟩
